import Mathlib

/-!
Verification of the lookup-table (LUT) subsystem of the vd_math crate:
axis validation, interval location by binary search, and 1D/2D/3D
multi-linear interpolation with boundary clamping.

Modelling conventions.  Finite f64 values are modelled as rationals, so
every arithmetic step of the code is carried out exactly.  NaN is
modelled by the value none of the type Option Rat, whose boolean order
f64le returns false whenever either operand is NaN, exactly as the IEEE
comparison used by the Rust code does; the validators and constructors
are generic over the scalar type together with its boolean order, so the
finite model and the NaN-aware model instantiate the same code.  Slice
indexing inside the lookup paths is modelled with getElem?, so a Rust
index-out-of-bounds panic appears as the result none, while a lookup
that stays in bounds returns some value.
-/

/-- Error type for LUT creation failures, from lut/error.rs. -/
inductive LutError where
  | EmptyXAxis
  | EmptyYAxis
  | EmptyZAxis
  | DimensionMismatch (expected : Nat) (actual : Nat)
  | UnsortedAxis (axis : String) (index : Nat)
deriving DecidableEq

/-- The boolean comparison of finite doubles, on the rational model. -/
def qle (a b : ℚ) : Bool := decide (a ≤ b)

/-- The IEEE boolean comparison on doubles including NaN (modelled as none):
any comparison with a NaN operand is false. -/
def f64le : Option ℚ → Option ℚ → Bool
  | some a, some b => decide (a ≤ b)
  | _, _ => false

/-- The scan loop of validate_axis in lut/interp.rs: walks adjacent pairs
from position i upward, with prev holding the element at position i - 1,
and reports the first index whose element compares less-or-equal to its
predecessor. -/
def validateFrom (fle : α → α → Bool) (name : String) : α → List α → Nat → Except LutError Unit
  | _, [], _ => .ok ()
  | prev, a :: rest, i =>
    if fle a prev then .error (.UnsortedAxis name i)
    else validateFrom fle name a rest (i + 1)

/-- Validates that an axis is non-empty and strictly ascending
(validate_axis in lut/interp.rs). -/
def validate_axis (fle : α → α → Bool) (axis : List α) (name : String) (empty_err : LutError) : Except LutError Unit :=
  match axis with
  | [] => .error empty_err
  | a :: rest => validateFrom fle name a rest 1

/-- The while loop of find_interval in lut/interp.rs.  The first argument
counts the remaining permitted iterations: the caller passes the axis
length, which exceeds the initial value of hi - lo, and every iteration
shrinks hi - lo, so the count never runs out before hi - lo <= 1. -/
def searchLoop (axis : List ℚ) (x : ℚ) : Nat → Nat → Nat → Nat × Nat
  | 0, lo, hi => (lo, hi)
  | fuel + 1, lo, hi =>
    if hi - lo > 1 then
      let mid := lo + (hi - lo) / 2
      if axis.getD mid 0 ≤ x then searchLoop axis x fuel mid hi
      else searchLoop axis x fuel lo mid
    else (lo, hi)

/-- Binary search for the interval containing x: returns the lower index
and the interpolation factor t, clamping at the domain boundaries
(find_interval in lut/interp.rs; n - 2 on Nat is the saturating
subtraction the Rust code uses). -/
def find_interval (axis : List ℚ) (x : ℚ) : Nat × ℚ :=
  let n := axis.length
  if x ≤ axis.getD 0 0 then (0, 0)
  else if axis.getD (n - 1) 0 ≤ x then (n - 2, 1)
  else
    let p := searchLoop axis x n 0 (n - 1)
    let x0 := axis.getD p.1 0
    let x1 := axis.getD p.2 0
    (p.1, (x - x0) / (x1 - x0))

/-- Linear interpolation between two values (lerp in lut/interp.rs). -/
def lerp (a b t : ℚ) : ℚ := a + t * (b - a)

/-- 1D lookup table (lut/lut1d.rs). -/
structure Lut1D (α : Type) where
  x_axis : List α
  data : List α
deriving DecidableEq

/-- Lut1D::new: validates the X axis, then checks that the data length
matches the axis length. -/
def Lut1D.new (fle : α → α → Bool) (x_axis data : List α) : Except LutError (Lut1D α) :=
  match validate_axis fle x_axis "X" LutError.EmptyXAxis with
  | .error e => .error e
  | .ok _ =>
    if data.length ≠ x_axis.length then
      .error (.DimensionMismatch x_axis.length data.length)
    else
      .ok ⟨x_axis, data⟩

/-- Lut1D::lookup: locate the interval, then interpolate linearly between
the bracketing samples; the two slice reads are modelled with getElem?. -/
def Lut1D.lookup (lut : Lut1D ℚ) (x : ℚ) : Option ℚ :=
  match find_interval lut.x_axis x with
  | (i, t) =>
    match lut.data[i]?, lut.data[i + 1]? with
    | some a, some b => some (lerp a b t)
    | _, _ => none

/-- 2D lookup table; data is stored row-major as data[yi * nx + xi]
(lut/lut2d.rs). -/
structure Lut2D (α : Type) where
  x_axis : List α
  y_axis : List α
  data : List α
deriving DecidableEq

/-- Lut2D::new: validates X, then Y, then checks that the data length
equals the product of the axis lengths. -/
def Lut2D.new (fle : α → α → Bool) (x_axis y_axis data : List α) : Except LutError (Lut2D α) :=
  match validate_axis fle x_axis "X" LutError.EmptyXAxis with
  | .error e => .error e
  | .ok _ =>
    match validate_axis fle y_axis "Y" LutError.EmptyYAxis with
    | .error e => .error e
    | .ok _ =>
      let expected := x_axis.length * y_axis.length
      if data.length ≠ expected then
        .error (.DimensionMismatch expected data.length)
      else
        .ok ⟨x_axis, y_axis, data⟩

/-- Lut2D::lookup: bilinear interpolation from the four corner samples. -/
def Lut2D.lookup (lut : Lut2D ℚ) (x y : ℚ) : Option ℚ :=
  match find_interval lut.x_axis x, find_interval lut.y_axis y with
  | (xi, tx), (yi, ty) =>
    let x_len := lut.x_axis.length
    match lut.data[yi * x_len + xi]?, lut.data[yi * x_len + xi + 1]?,
          lut.data[(yi + 1) * x_len + xi]?, lut.data[(yi + 1) * x_len + xi + 1]? with
    | some v00, some v10, some v01, some v11 =>
      some (lerp (lerp v00 v10 tx) (lerp v01 v11 tx) ty)
    | _, _, _, _ => none

/-- 3D lookup table; data is linearized as data[zi * (nx * ny) + yi * nx + xi]
(lut/lut3d.rs). -/
structure Lut3D (α : Type) where
  x_axis : List α
  y_axis : List α
  z_axis : List α
  data : List α
deriving DecidableEq

/-- Lut3D::new: validates X, then Y, then Z, then checks that the data
length equals the product of the three axis lengths. -/
def Lut3D.new (fle : α → α → Bool) (x_axis y_axis z_axis data : List α) : Except LutError (Lut3D α) :=
  match validate_axis fle x_axis "X" LutError.EmptyXAxis with
  | .error e => .error e
  | .ok _ =>
    match validate_axis fle y_axis "Y" LutError.EmptyYAxis with
    | .error e => .error e
    | .ok _ =>
      match validate_axis fle z_axis "Z" LutError.EmptyZAxis with
      | .error e => .error e
      | .ok _ =>
        let expected := x_axis.length * y_axis.length * z_axis.length
        if data.length ≠ expected then
          .error (.DimensionMismatch expected data.length)
        else
          .ok ⟨x_axis, y_axis, z_axis, data⟩

/-- Lut3D::lookup: trilinear interpolation from the eight cube corners,
combined in the X, then Y, then Z order of the source. -/
def Lut3D.lookup (lut : Lut3D ℚ) (x y z : ℚ) : Option ℚ :=
  match find_interval lut.x_axis x, find_interval lut.y_axis y, find_interval lut.z_axis z with
  | (xi, tx), (yi, ty), (zi, tz) =>
    let nx := lut.x_axis.length
    let nxy := nx * lut.y_axis.length
    let idx := fun (ix iy iz : Nat) => iz * nxy + iy * nx + ix
    match lut.data[idx xi yi zi]?, lut.data[idx (xi + 1) yi zi]?,
          lut.data[idx xi (yi + 1) zi]?, lut.data[idx (xi + 1) (yi + 1) zi]?,
          lut.data[idx xi yi (zi + 1)]?, lut.data[idx (xi + 1) yi (zi + 1)]?,
          lut.data[idx xi (yi + 1) (zi + 1)]?, lut.data[idx (xi + 1) (yi + 1) (zi + 1)]? with
    | some c000, some c100, some c010, some c110,
      some c001, some c101, some c011, some c111 =>
      let c00 := lerp c000 c100 tx
      let c10 := lerp c010 c110 tx
      let c01 := lerp c001 c101 tx
      let c11 := lerp c011 c111 tx
      let c0 := lerp c00 c10 ty
      let c1 := lerp c01 c11 ty
      some (lerp c0 c1 tz)
    | _, _, _, _, _, _, _, _ => none

/-- Strict ascent of an axis in the rational model: each breakpoint is
below its successor. -/
def StrictAscQ (axis : List ℚ) : Prop :=
  ∀ i, i < axis.length - 1 → axis.getD i 0 < axis.getD (i + 1) 0

instance (axis : List ℚ) : Decidable (StrictAscQ axis) := by
  unfold StrictAscQ; infer_instance

/-- Position i is the first violation of strict ascent in an axis: the
element there compares less-or-equal to its predecessor, while every
earlier adjacent pair ascends strictly. -/
def FirstViolation (axis : List ℚ) (i : Nat) : Prop :=
  1 ≤ i ∧ i < axis.length ∧ axis.getD i 0 ≤ axis.getD (i - 1) 0 ∧
    ∀ j, j < i → 1 ≤ j → ¬ axis.getD j 0 ≤ axis.getD (j - 1) 0

instance (axis : List ℚ) (i : Nat) : Decidable (FirstViolation axis i) := by
  unfold FirstViolation; infer_instance

deriving instance DecidableEq for Except

/-! ### Library helpers -/

/-- In-bounds list reads agree between getElem? and getD. -/
lemma getElem?_some_getD (l : List ℚ) (i : Nat) (h : i < l.length) :
    l[i]? = some (l.getD i 0) := by
  rw [List.getElem?_eq_getElem h, List.getD_eq_getElem]

/-- Row-major 2D corner indices stay inside the value array. -/
lemma idx2_lt {a b nx ny : Nat} (hx : a < nx) (hy : b < ny) :
    b * nx + a < nx * ny := by
  calc b * nx + a < b * nx + nx := by omega
    _ = (b + 1) * nx := by ring
    _ ≤ ny * nx := Nat.mul_le_mul_right _ (by omega)
    _ = nx * ny := Nat.mul_comm _ _

/-- Linearized 3D corner indices stay inside the value array. -/
lemma idx3_lt {a b c nx ny nz : Nat} (hx : a < nx) (hy : b < ny) (hz : c < nz) :
    c * (nx * ny) + b * nx + a < nx * ny * nz := by
  have h2 : b * nx + a < nx * ny := idx2_lt hx hy
  calc c * (nx * ny) + b * nx + a < c * (nx * ny) + nx * ny := by omega
    _ = (c + 1) * (nx * ny) := by ring
    _ ≤ nz * (nx * ny) := Nat.mul_le_mul_right _ (by omega)
    _ = nx * ny * nz := by ring

/-- Interpolation at fraction 0 returns the lower sample exactly. -/
lemma lerp_zero (a b : ℚ) : lerp a b 0 = a := by unfold lerp; ring

/-- Interpolation at fraction 1 returns the upper sample exactly. -/
lemma lerp_one (a b : ℚ) : lerp a b 1 = b := by unfold lerp; ring

/-! ### Axis validation -/

/-- A successful scan from any start certifies strict ascent of all the
adjacent pairs it visited. -/
lemma validateFrom_ok_ascending (name : String) :
    ∀ (rest : List ℚ) (prev : ℚ) (i : Nat),
      validateFrom qle name prev rest i = .ok () →
      ∀ j, j < (prev :: rest).length - 1 →
        (prev :: rest).getD j 0 < (prev :: rest).getD (j + 1) 0 := by
  intro rest
  induction rest with
  | nil => intro prev i _ j hj; simp at hj
  | cons a t ih =>
    intro prev i hok j hj
    rw [validateFrom] at hok
    by_cases hle : qle a prev
    · rw [if_pos hle] at hok; exact absurd hok (by simp)
    · rw [if_neg hle] at hok
      have hpa : prev < a := by
        unfold qle at hle
        simpa using not_le.mp (by simpa using hle)
      match j with
      | 0 => simpa using hpa
      | j + 1 =>
        have := ih a (i + 1) hok j (by simpa using hj)
        simpa using this

/-- The scan reports the first offending adjacent pair, at the absolute
index of its second element. -/
lemma validateFrom_error_at (name : String) :
    ∀ (rest : List ℚ) (prev : ℚ) (i k : Nat),
      k < rest.length →
      rest.getD k 0 ≤ (prev :: rest).getD k 0 →
      (∀ m, m < k → ¬ rest.getD m 0 ≤ (prev :: rest).getD m 0) →
      validateFrom qle name prev rest i = .error (.UnsortedAxis name (i + k)) := by
  intro rest
  induction rest with
  | nil => intro prev i k hk; simp at hk
  | cons a t ih =>
    intro prev i k hk hbad hgood
    match k with
    | 0 =>
      have hle : qle a prev = true := by
        unfold qle; simpa using hbad
      rw [validateFrom, if_pos hle, Nat.add_zero]
    | k + 1 =>
      have hok : ¬ qle a prev = true := by
        have := hgood 0 (by omega)
        unfold qle; simpa using this
      rw [validateFrom, if_neg hok]
      have := ih a (i + 1) k (by simpa using hk)
        (by simpa using hbad)
        (fun m hm => by simpa using hgood (m + 1) (by omega))
      rw [this]
      simp [Nat.add_assoc, Nat.add_comm 1 k]

/-- A validated axis is strictly ascending in the rational model. -/
lemma validate_axis_ok_strictAsc {axis : List ℚ} {name : String} {e : LutError}
    (h : validate_axis qle axis name e = .ok ()) : StrictAscQ axis := by
  match axis with
  | [] => exact absurd h (by simp [validate_axis])
  | a :: rest =>
    intro j hj
    exact validateFrom_ok_ascending name rest a 1 h j hj

/-- A validated axis is non-empty. -/
lemma validate_axis_ok_ne_nil {axis : List ℚ} {name : String} {e : LutError}
    (h : validate_axis qle axis name e = .ok ()) : axis ≠ [] := by
  intro hnil; subst hnil; exact absurd h (by simp [validate_axis])

/-- validate_axis reports the first strict-ascent violation at its exact
index. -/
lemma validate_axis_error_first {axis : List ℚ} {i : Nat}
    (name : String) (e : LutError) (h : FirstViolation axis i) :
    validate_axis qle axis name e = .error (.UnsortedAxis name i) := by
  obtain ⟨h1, h2, hbad, hgood⟩ := h
  match axis with
  | [] => simp at h2
  | a :: rest =>
    show validateFrom qle name a rest 1 = Except.error (.UnsortedAxis name i)
    have hk : i - 1 < rest.length := by
      simp only [List.length_cons] at h2; omega
    have hieq : i = (i - 1) + 1 := by omega
    have hbad2 : rest.getD (i - 1) 0 ≤ (a :: rest).getD (i - 1) 0 := by
      rw [hieq] at hbad
      rwa [List.getD_cons_succ, Nat.add_sub_cancel] at hbad
    have hgood2 : ∀ m, m < i - 1 → ¬ rest.getD m 0 ≤ (a :: rest).getD m 0 := by
      intro m hm
      have := hgood (m + 1) (by omega) (by omega)
      rwa [List.getD_cons_succ, Nat.add_sub_cancel] at this
    have := validateFrom_error_at name rest a 1 (i - 1) hk hbad2 hgood2
    rw [this, show 1 + (i - 1) = i by omega]

/-! ### Strict ascent: monotone consequences -/

lemma strictAscQ_step {axis : List ℚ} (h : StrictAscQ axis) :
    ∀ (d i : Nat), i + d + 1 < axis.length →
      axis.getD i 0 < axis.getD (i + d + 1) 0 := by
  intro d
  induction d with
  | zero => intro i hb; exact h i (by omega)
  | succ d ih =>
    intro i hb
    have h1 : axis.getD i 0 < axis.getD (i + d + 1) 0 := ih i (by omega)
    have h2 : axis.getD (i + d + 1) 0 < axis.getD (i + d + 2) 0 := h (i + d + 1) (by omega)
    have : i + (d + 1) + 1 = i + d + 2 := by omega
    rw [this]
    exact lt_trans h1 h2

/-- Strict ascent gives strict order between any two in-range positions. -/
lemma strictAscQ_lt {axis : List ℚ} (h : StrictAscQ axis) {i j : Nat}
    (hij : i < j) (hj : j < axis.length) : axis.getD i 0 < axis.getD j 0 := by
  have := strictAscQ_step h (j - i - 1) i (by omega)
  rwa [show i + (j - i - 1) + 1 = j by omega] at this

/-- Strict ascent gives weak order between any two ordered positions. -/
lemma strictAscQ_le {axis : List ℚ} (h : StrictAscQ axis) {i j : Nat}
    (hij : i ≤ j) (hj : j < axis.length) : axis.getD i 0 ≤ axis.getD j 0 := by
  rcases Nat.lt_or_ge i j with hlt | hge
  · exact le_of_lt (strictAscQ_lt h hlt hj)
  · have : i = j := by omega
    rw [this]

/-! ### The binary search loop -/

/-- Loop invariant of the binary search: started on a bracketing pair with
enough permitted iterations, it returns adjacent indices that still bracket
the query and stay inside the initial range. -/
lemma searchLoop_spec (axis : List ℚ) (x : ℚ) :
    ∀ (fuel lo hi : Nat), hi - lo ≤ fuel → lo < hi →
      axis.getD lo 0 ≤ x → x < axis.getD hi 0 →
      ∃ l, searchLoop axis x fuel lo hi = (l, l + 1) ∧
        lo ≤ l ∧ l + 1 ≤ hi ∧ axis.getD l 0 ≤ x ∧ x < axis.getD (l + 1) 0 := by
  intro fuel
  induction fuel with
  | zero => intro lo hi hfuel hlt _ _; omega
  | succ fuel ih =>
    intro lo hi hfuel hlt hlo hhi
    simp only [searchLoop]
    by_cases hgap : hi - lo > 1
    · rw [if_pos hgap]
      by_cases hmid : axis.getD (lo + (hi - lo) / 2) 0 ≤ x
      · rw [if_pos hmid]
        obtain ⟨l, heq, h1, h2, h3, h4⟩ :=
          ih (lo + (hi - lo) / 2) hi (by omega) (by omega) hmid hhi
        exact ⟨l, heq, by omega, h2, h3, h4⟩
      · rw [if_neg hmid]
        obtain ⟨l, heq, h1, h2, h3, h4⟩ :=
          ih lo (lo + (hi - lo) / 2) (by omega) (by omega) hlo (not_le.mp hmid)
        exact ⟨l, heq, h1, by omega, h3, h4⟩
    · rw [if_neg hgap]
      have : hi = lo + 1 := by omega
      subst this
      exact ⟨lo, rfl, le_refl _, le_refl _, hlo, hhi⟩

/-! ### find_interval characterization -/

/-- Queries at or below the first breakpoint clamp to the lowest interval. -/
lemma find_interval_low {axis : List ℚ} {x : ℚ} (h : x ≤ axis.getD 0 0) :
    find_interval axis x = (0, 0) := by
  unfold find_interval
  rw [if_pos h]

/-- Queries at or above the last breakpoint clamp to the highest interval.
Only needs the first breakpoint to sit weakly below the query. -/
lemma find_interval_high {axis : List ℚ} {x : ℚ}
    (h0 : ¬ x ≤ axis.getD 0 0)
    (h : axis.getD (axis.length - 1) 0 ≤ x) :
    find_interval axis x = (axis.length - 2, 1) := by
  unfold find_interval
  rw [if_neg h0, if_pos h]

/-- In the interior case find_interval runs the binary search, and the
returned index brackets the query with the fraction computed from the
bracketing pair. -/
lemma find_interval_search {axis : List ℚ} {x : ℚ}
    (h2 : 2 ≤ axis.length)
    (h0 : ¬ x ≤ axis.getD 0 0)
    (h1 : ¬ axis.getD (axis.length - 1) 0 ≤ x) :
    ∃ l, find_interval axis x
        = (l, (x - axis.getD l 0) / (axis.getD (l + 1) 0 - axis.getD l 0)) ∧
      l + 1 ≤ axis.length - 1 ∧ axis.getD l 0 ≤ x ∧ x < axis.getD (l + 1) 0 := by
  obtain ⟨l, heq, _, hle, hbr1, hbr2⟩ :=
    searchLoop_spec axis x axis.length 0 (axis.length - 1)
      (by omega) (by omega) (le_of_lt (not_le.mp h0)) (not_le.mp h1)
  refine ⟨l, ?_, hle, hbr1, hbr2⟩
  unfold find_interval
  rw [if_neg h0, if_neg h1]
  simp only [heq]

/-- For every query against an axis of length at least two, the returned
lower index leaves room for the upper neighbour. -/
lemma find_interval_fst_bound {axis : List ℚ} (x : ℚ) (h2 : 2 ≤ axis.length) :
    (find_interval axis x).1 + 1 ≤ axis.length - 1 := by
  by_cases h0 : x ≤ axis.getD 0 0
  · rw [find_interval_low h0]; omega
  · by_cases h1 : axis.getD (axis.length - 1) 0 ≤ x
    · rw [find_interval_high h0 h1]; omega
    · obtain ⟨l, heq, hle, _, _⟩ := find_interval_search h2 h0 h1
      rw [heq]; exact hle

/-- Querying exactly at an interior breakpoint yields that index with
fraction zero. -/
lemma find_interval_breakpoint_lt {axis : List ℚ} (hs : StrictAscQ axis)
    {i : Nat} (hi : i + 1 < axis.length) :
    find_interval axis (axis.getD i 0) = (i, 0) := by
  match i with
  | 0 => exact find_interval_low (le_refl _)
  | i + 1 =>
    have h0 : ¬ axis.getD (i + 1) 0 ≤ axis.getD 0 0 :=
      not_le.mpr (strictAscQ_lt hs (by omega) (by omega))
    have h1 : ¬ axis.getD (axis.length - 1) 0 ≤ axis.getD (i + 1) 0 :=
      not_le.mpr (strictAscQ_lt hs (by omega) (by omega))
    obtain ⟨l, heq, hle, hbr1, hbr2⟩ := find_interval_search (by omega) h0 h1
    have hl : l = i + 1 := by
      rcases Nat.lt_trichotomy l (i + 1) with hlt | heqq | hgt
      · exact absurd (strictAscQ_le hs (show l + 1 ≤ i + 1 by omega) (by omega))
          (not_le.mpr hbr2)
      · exact heqq
      · exact absurd hbr1 (not_le.mpr (strictAscQ_lt hs hgt (by omega)))
    subst hl
    rw [heq]
    norm_num

/-- Querying exactly at the last breakpoint yields the last interval with
fraction one. -/
lemma find_interval_breakpoint_last {axis : List ℚ} (hs : StrictAscQ axis)
    (h2 : 2 ≤ axis.length) :
    find_interval axis (axis.getD (axis.length - 1) 0) = (axis.length - 2, 1) := by
  have h0 : ¬ axis.getD (axis.length - 1) 0 ≤ axis.getD 0 0 :=
    not_le.mpr (strictAscQ_lt hs (by omega) (by omega))
  exact find_interval_high h0 (le_refl _)

/-! ### Constructor inversion -/

/-- A table returned by Lut1D::new carries exactly the supplied axis and
data, with the construction invariants established. -/
lemma lut1d_new_ok {xs d : List ℚ} {lut : Lut1D ℚ}
    (h : Lut1D.new qle xs d = .ok lut) :
    lut = Lut1D.mk xs d ∧ StrictAscQ xs ∧ d.length = xs.length := by
  unfold Lut1D.new at h
  cases hv : validate_axis qle xs "X" LutError.EmptyXAxis with
  | error e => rw [hv] at h; simp at h
  | ok u =>
    cases u
    rw [hv] at h
    dsimp only at h
    split at h
    · simp at h
    · rename_i hd
      injection h with h
      exact ⟨h.symm, validate_axis_ok_strictAsc hv, by omega⟩

/-- Construction invariants of Lut2D::new. -/
lemma lut2d_new_ok {xs ys d : List ℚ} {lut : Lut2D ℚ}
    (h : Lut2D.new qle xs ys d = .ok lut) :
    lut = Lut2D.mk xs ys d ∧ StrictAscQ xs ∧ StrictAscQ ys ∧
      d.length = xs.length * ys.length := by
  unfold Lut2D.new at h
  cases hvx : validate_axis qle xs "X" LutError.EmptyXAxis with
  | error e => rw [hvx] at h; simp at h
  | ok u =>
    cases u
    rw [hvx] at h
    dsimp only at h
    cases hvy : validate_axis qle ys "Y" LutError.EmptyYAxis with
    | error e => rw [hvy] at h; simp at h
    | ok v =>
      cases v
      rw [hvy] at h
      dsimp only at h
      split at h
      · simp at h
      · rename_i hd
        injection h with h
        exact ⟨h.symm, validate_axis_ok_strictAsc hvx,
          validate_axis_ok_strictAsc hvy, by omega⟩

/-- Construction invariants of Lut3D::new. -/
lemma lut3d_new_ok {xs ys zs d : List ℚ} {lut : Lut3D ℚ}
    (h : Lut3D.new qle xs ys zs d = .ok lut) :
    lut = Lut3D.mk xs ys zs d ∧ StrictAscQ xs ∧ StrictAscQ ys ∧ StrictAscQ zs ∧
      d.length = xs.length * ys.length * zs.length := by
  unfold Lut3D.new at h
  cases hvx : validate_axis qle xs "X" LutError.EmptyXAxis with
  | error e => rw [hvx] at h; simp at h
  | ok u =>
    cases u
    rw [hvx] at h
    dsimp only at h
    cases hvy : validate_axis qle ys "Y" LutError.EmptyYAxis with
    | error e => rw [hvy] at h; simp at h
    | ok v =>
      cases v
      rw [hvy] at h
      dsimp only at h
      cases hvz : validate_axis qle zs "Z" LutError.EmptyZAxis with
      | error e => rw [hvz] at h; simp at h
      | ok w =>
        cases w
        rw [hvz] at h
        dsimp only at h
        split at h
        · simp at h
        · rename_i hd
          injection h with h
          exact ⟨h.symm, validate_axis_ok_strictAsc hvx,
            validate_axis_ok_strictAsc hvy, validate_axis_ok_strictAsc hvz, by omega⟩

/-! ### Closed forms for lookup on tables whose axes have two or more
breakpoints -/

/-- With at least two breakpoints and a matching data length, the 1D lookup
always succeeds, interpolating the two bracketing samples. -/
lemma lut1d_lookup_eq {xs d : List ℚ} (h2 : 2 ≤ xs.length)
    (hd : d.length = xs.length) (x : ℚ) :
    (Lut1D.mk xs d).lookup x =
      some (lerp (d.getD (find_interval xs x).1 0)
        (d.getD ((find_interval xs x).1 + 1) 0) (find_interval xs x).2) := by
  have hb := find_interval_fst_bound x h2
  rcases hfi : find_interval xs x with ⟨i, t⟩
  rw [hfi] at hb
  have hi1 : i + 1 < d.length := by omega
  have hi0 : i < d.length := by omega
  simp only [Lut1D.lookup, hfi]
  rw [getElem?_some_getD _ _ hi0, getElem?_some_getD _ _ hi1]

/-- With at least two breakpoints on each axis and a matching data length,
the 2D lookup always succeeds, bilinearly combining the four corners. -/
lemma lut2d_lookup_eq {xs ys d : List ℚ} (hx : 2 ≤ xs.length) (hy : 2 ≤ ys.length)
    (hd : d.length = xs.length * ys.length) (x y : ℚ) :
    (Lut2D.mk xs ys d).lookup x y =
      some (lerp
        (lerp (d.getD ((find_interval ys y).1 * xs.length + (find_interval xs x).1) 0)
          (d.getD ((find_interval ys y).1 * xs.length + (find_interval xs x).1 + 1) 0)
          (find_interval xs x).2)
        (lerp (d.getD (((find_interval ys y).1 + 1) * xs.length + (find_interval xs x).1) 0)
          (d.getD (((find_interval ys y).1 + 1) * xs.length + (find_interval xs x).1 + 1) 0)
          (find_interval xs x).2)
        (find_interval ys y).2) := by
  have hbx := find_interval_fst_bound x hx
  have hby := find_interval_fst_bound y hy
  rcases hfx : find_interval xs x with ⟨xi, tx⟩
  rcases hfy : find_interval ys y with ⟨yi, ty⟩
  rw [hfx] at hbx
  rw [hfy] at hby
  have b00 : yi * xs.length + xi < d.length := by
    rw [hd]; exact idx2_lt (by omega) (by omega)
  have b10 : yi * xs.length + xi + 1 < d.length := by
    rw [hd]; exact idx2_lt (a := xi + 1) (by omega) (by omega)
  have b01 : (yi + 1) * xs.length + xi < d.length := by
    rw [hd]; exact idx2_lt (by omega) (by omega)
  have b11 : (yi + 1) * xs.length + xi + 1 < d.length := by
    rw [hd]; exact idx2_lt (a := xi + 1) (by omega) (by omega)
  simp only [Lut2D.lookup, hfx, hfy]
  rw [getElem?_some_getD _ _ b00, getElem?_some_getD _ _ b10,
    getElem?_some_getD _ _ b01, getElem?_some_getD _ _ b11]

/-- With at least two breakpoints on each axis and a matching data length,
the 3D lookup always succeeds, trilinearly combining the eight corners. -/
lemma lut3d_lookup_eq {xs ys zs d : List ℚ} (hx : 2 ≤ xs.length)
    (hy : 2 ≤ ys.length) (hz : 2 ≤ zs.length)
    (hd : d.length = xs.length * ys.length * zs.length) (x y z : ℚ) :
    (Lut3D.mk xs ys zs d).lookup x y z =
      some (lerp
        (lerp
          (lerp (d.getD ((find_interval zs z).1 * (xs.length * ys.length) + (find_interval ys y).1 * xs.length + (find_interval xs x).1) 0)
            (d.getD ((find_interval zs z).1 * (xs.length * ys.length) + (find_interval ys y).1 * xs.length + (find_interval xs x).1 + 1) 0)
            (find_interval xs x).2)
          (lerp (d.getD ((find_interval zs z).1 * (xs.length * ys.length) + ((find_interval ys y).1 + 1) * xs.length + (find_interval xs x).1) 0)
            (d.getD ((find_interval zs z).1 * (xs.length * ys.length) + ((find_interval ys y).1 + 1) * xs.length + (find_interval xs x).1 + 1) 0)
            (find_interval xs x).2)
          (find_interval ys y).2)
        (lerp
          (lerp (d.getD (((find_interval zs z).1 + 1) * (xs.length * ys.length) + (find_interval ys y).1 * xs.length + (find_interval xs x).1) 0)
            (d.getD (((find_interval zs z).1 + 1) * (xs.length * ys.length) + (find_interval ys y).1 * xs.length + (find_interval xs x).1 + 1) 0)
            (find_interval xs x).2)
          (lerp (d.getD (((find_interval zs z).1 + 1) * (xs.length * ys.length) + ((find_interval ys y).1 + 1) * xs.length + (find_interval xs x).1) 0)
            (d.getD (((find_interval zs z).1 + 1) * (xs.length * ys.length) + ((find_interval ys y).1 + 1) * xs.length + (find_interval xs x).1 + 1) 0)
            (find_interval xs x).2)
          (find_interval ys y).2)
        (find_interval zs z).2) := by
  have hbx := find_interval_fst_bound x hx
  have hby := find_interval_fst_bound y hy
  have hbz := find_interval_fst_bound z hz
  rcases hfx : find_interval xs x with ⟨xi, tx⟩
  rcases hfy : find_interval ys y with ⟨yi, ty⟩
  rcases hfz : find_interval zs z with ⟨zi, tz⟩
  rw [hfx] at hbx
  rw [hfy] at hby
  rw [hfz] at hbz
  have b000 : zi * (xs.length * ys.length) + yi * xs.length + xi < d.length := by
    rw [hd]; exact idx3_lt (by omega) (by omega) (by omega)
  have b100 : zi * (xs.length * ys.length) + yi * xs.length + (xi + 1) < d.length := by
    rw [hd]; exact idx3_lt (a := xi + 1) (by omega) (by omega) (by omega)
  have b010 : zi * (xs.length * ys.length) + (yi + 1) * xs.length + xi < d.length := by
    rw [hd]; exact idx3_lt (by omega) (by omega) (by omega)
  have b110 : zi * (xs.length * ys.length) + (yi + 1) * xs.length + (xi + 1) < d.length := by
    rw [hd]; exact idx3_lt (a := xi + 1) (by omega) (by omega) (by omega)
  have b001 : (zi + 1) * (xs.length * ys.length) + yi * xs.length + xi < d.length := by
    rw [hd]; exact idx3_lt (by omega) (by omega) (by omega)
  have b101 : (zi + 1) * (xs.length * ys.length) + yi * xs.length + (xi + 1) < d.length := by
    rw [hd]; exact idx3_lt (a := xi + 1) (by omega) (by omega) (by omega)
  have b011 : (zi + 1) * (xs.length * ys.length) + (yi + 1) * xs.length + xi < d.length := by
    rw [hd]; exact idx3_lt (by omega) (by omega) (by omega)
  have b111 : (zi + 1) * (xs.length * ys.length) + (yi + 1) * xs.length + (xi + 1) < d.length := by
    rw [hd]; exact idx3_lt (a := xi + 1) (by omega) (by omega) (by omega)
  simp only [Lut3D.lookup, hfx, hfy, hfz]
  rw [getElem?_some_getD _ _ b000, getElem?_some_getD _ _ b100,
    getElem?_some_getD _ _ b010, getElem?_some_getD _ _ b110,
    getElem?_some_getD _ _ b001, getElem?_some_getD _ _ b101,
    getElem?_some_getD _ _ b011, getElem?_some_getD _ _ b111]
  simp [Nat.add_assoc]

/-! ### Claims about construction-time error reporting -/

/-- C5: every constructor rejects an empty axis with the EmptyAxis error
naming that axis, and rejects an axis whose first strict-ascent violation
(duplicate or descending step) sits at index i with UnsortedAxis carrying
that axis's name and exactly that index; for the Y and Z axes this is the
reported error whenever the earlier axes pass validation, per the
fail-fast order of the constructors. -/
theorem construct_error_reporting :
    (∀ d : List ℚ, Lut1D.new qle [] d = .error .EmptyXAxis) ∧
    (∀ (xs d : List ℚ) (i : Nat), FirstViolation xs i →
      Lut1D.new qle xs d = .error (.UnsortedAxis "X" i)) ∧
    (∀ ys d : List ℚ, Lut2D.new qle [] ys d = .error .EmptyXAxis) ∧
    (∀ xs d : List ℚ, validate_axis qle xs "X" .EmptyXAxis = .ok () →
      Lut2D.new qle xs [] d = .error .EmptyYAxis) ∧
    (∀ (xs ys d : List ℚ) (i : Nat), FirstViolation xs i →
      Lut2D.new qle xs ys d = .error (.UnsortedAxis "X" i)) ∧
    (∀ (xs ys d : List ℚ) (i : Nat), validate_axis qle xs "X" .EmptyXAxis = .ok () →
      FirstViolation ys i → Lut2D.new qle xs ys d = .error (.UnsortedAxis "Y" i)) ∧
    (∀ ys zs d : List ℚ, Lut3D.new qle [] ys zs d = .error .EmptyXAxis) ∧
    (∀ xs zs d : List ℚ, validate_axis qle xs "X" .EmptyXAxis = .ok () →
      Lut3D.new qle xs [] zs d = .error .EmptyYAxis) ∧
    (∀ xs ys d : List ℚ, validate_axis qle xs "X" .EmptyXAxis = .ok () →
      validate_axis qle ys "Y" .EmptyYAxis = .ok () →
      Lut3D.new qle xs ys [] d = .error .EmptyZAxis) ∧
    (∀ (xs ys zs d : List ℚ) (i : Nat), FirstViolation xs i →
      Lut3D.new qle xs ys zs d = .error (.UnsortedAxis "X" i)) ∧
    (∀ (xs ys zs d : List ℚ) (i : Nat), validate_axis qle xs "X" .EmptyXAxis = .ok () →
      FirstViolation ys i → Lut3D.new qle xs ys zs d = .error (.UnsortedAxis "Y" i)) ∧
    (∀ (xs ys zs d : List ℚ) (i : Nat), validate_axis qle xs "X" .EmptyXAxis = .ok () →
      validate_axis qle ys "Y" .EmptyYAxis = .ok () →
      FirstViolation zs i → Lut3D.new qle xs ys zs d = .error (.UnsortedAxis "Z" i)) := by
  refine ⟨?_, ?_, ?_, ?_, ?_, ?_, ?_, ?_, ?_, ?_, ?_, ?_⟩
  · intro d; rfl
  · intro xs d i hfv
    unfold Lut1D.new
    rw [validate_axis_error_first "X" LutError.EmptyXAxis hfv]
  · intro ys d; rfl
  · intro xs d hvx
    unfold Lut2D.new
    rw [hvx]
    rfl
  · intro xs ys d i hfv
    unfold Lut2D.new
    rw [validate_axis_error_first "X" LutError.EmptyXAxis hfv]
  · intro xs ys d i hvx hfv
    unfold Lut2D.new
    rw [hvx, validate_axis_error_first "Y" LutError.EmptyYAxis hfv]
  · intro ys zs d; rfl
  · intro xs zs d hvx
    unfold Lut3D.new
    rw [hvx]
    rfl
  · intro xs ys d hvx hvy
    unfold Lut3D.new
    rw [hvx, hvy]
    rfl
  · intro xs ys zs d i hfv
    unfold Lut3D.new
    rw [validate_axis_error_first "X" LutError.EmptyXAxis hfv]
  · intro xs ys zs d i hvx hfv
    unfold Lut3D.new
    rw [hvx, validate_axis_error_first "Y" LutError.EmptyYAxis hfv]
  · intro xs ys zs d i hvx hvy hfv
    unfold Lut3D.new
    rw [hvx, hvy, validate_axis_error_first "Z" LutError.EmptyZAxis hfv]

/-- Witness: concrete instances of every error-reporting clause. -/
theorem construct_error_reporting_witness :
    Lut1D.new qle ([] : List ℚ) [] = .error .EmptyXAxis ∧
    Lut1D.new qle [(0 : ℚ), 2, 1, 3] [0, 0, 0, 0] = .error (.UnsortedAxis "X" 2) ∧
    Lut2D.new qle ([] : List ℚ) [0] [] = .error .EmptyXAxis ∧
    Lut2D.new qle [(0 : ℚ), 1] [] [] = .error .EmptyYAxis ∧
    Lut2D.new qle [(0 : ℚ), 2, 2] [0, 1] [] = .error (.UnsortedAxis "X" 2) ∧
    Lut2D.new qle [(0 : ℚ), 1] [(5 : ℚ), 4] [] = .error (.UnsortedAxis "Y" 1) ∧
    Lut3D.new qle ([] : List ℚ) [0] [0] [] = .error .EmptyXAxis ∧
    Lut3D.new qle [(0 : ℚ), 1] [] [0] [] = .error .EmptyYAxis ∧
    Lut3D.new qle [(0 : ℚ), 1] [(0 : ℚ), 1] [] [] = .error .EmptyZAxis ∧
    Lut3D.new qle [(1 : ℚ), 1] [0, 1] [0, 1] [] = .error (.UnsortedAxis "X" 1) ∧
    Lut3D.new qle [(0 : ℚ), 1] [(3 : ℚ), 2] [0, 1] [] = .error (.UnsortedAxis "Y" 1) ∧
    Lut3D.new qle [(0 : ℚ), 1] [(0 : ℚ), 1] [(0 : ℚ), 0] [] = .error (.UnsortedAxis "Z" 1) :=
  ⟨construct_error_reporting.1 [],
   construct_error_reporting.2.1 [0, 2, 1, 3] [0, 0, 0, 0] 2 (by decide),
   construct_error_reporting.2.2.1 [0] [],
   construct_error_reporting.2.2.2.1 [0, 1] [] (by decide),
   construct_error_reporting.2.2.2.2.1 [0, 2, 2] [0, 1] [] 2 (by decide),
   construct_error_reporting.2.2.2.2.2.1 [0, 1] [5, 4] [] 1 (by decide) (by decide),
   construct_error_reporting.2.2.2.2.2.2.1 [0] [0] [],
   construct_error_reporting.2.2.2.2.2.2.2.1 [0, 1] [0] [] (by decide),
   construct_error_reporting.2.2.2.2.2.2.2.2.1 [0, 1] [0, 1] [] (by decide) (by decide),
   construct_error_reporting.2.2.2.2.2.2.2.2.2.1 [1, 1] [0, 1] [0, 1] [] 1 (by decide),
   construct_error_reporting.2.2.2.2.2.2.2.2.2.2.1 [0, 1] [3, 2] [0, 1] [] 1 (by decide) (by decide),
   construct_error_reporting.2.2.2.2.2.2.2.2.2.2.2 [0, 1] [0, 1] [0, 0] [] 1 (by decide) (by decide) (by decide)⟩

/-- C6: when every supplied axis validates but the value array length
differs from the product of the axis lengths, construction fails with
DimensionMismatch carrying exactly that product as expected and the
supplied length as actual, for 1D, 2D and 3D. -/
theorem construct_dimension_mismatch :
    (∀ xs d : List ℚ, validate_axis qle xs "X" .EmptyXAxis = .ok () →
      d.length ≠ xs.length →
      Lut1D.new qle xs d = .error (.DimensionMismatch xs.length d.length)) ∧
    (∀ xs ys d : List ℚ, validate_axis qle xs "X" .EmptyXAxis = .ok () →
      validate_axis qle ys "Y" .EmptyYAxis = .ok () →
      d.length ≠ xs.length * ys.length →
      Lut2D.new qle xs ys d = .error (.DimensionMismatch (xs.length * ys.length) d.length)) ∧
    (∀ xs ys zs d : List ℚ, validate_axis qle xs "X" .EmptyXAxis = .ok () →
      validate_axis qle ys "Y" .EmptyYAxis = .ok () →
      validate_axis qle zs "Z" .EmptyZAxis = .ok () →
      d.length ≠ xs.length * ys.length * zs.length →
      Lut3D.new qle xs ys zs d
        = .error (.DimensionMismatch (xs.length * ys.length * zs.length) d.length)) := by
  refine ⟨?_, ?_, ?_⟩
  · intro xs d hvx hne
    unfold Lut1D.new
    rw [hvx]
    dsimp only
    rw [if_pos hne]
  · intro xs ys d hvx hvy hne
    unfold Lut2D.new
    rw [hvx, hvy]
    dsimp only
    rw [if_pos hne]
  · intro xs ys zs d hvx hvy hvz hne
    unfold Lut3D.new
    rw [hvx, hvy, hvz]
    dsimp only
    rw [if_pos hne]

/-- Witness: concrete dimension mismatches in all three dimensionalities. -/
theorem construct_dimension_mismatch_witness :
    Lut1D.new qle [(0 : ℚ), 1] [0, 0, 0] = .error (.DimensionMismatch 2 3) ∧
    Lut2D.new qle [(0 : ℚ), 1] [(0 : ℚ), 1] [0, 0, 0] = .error (.DimensionMismatch 4 3) ∧
    Lut3D.new qle [(0 : ℚ), 1] [(0 : ℚ), 1] [(0 : ℚ), 1] [0, 0, 0, 0, 0, 0, 0]
      = .error (.DimensionMismatch 8 7) :=
  ⟨construct_dimension_mismatch.1 [0, 1] [0, 0, 0] (by decide) (by decide),
   construct_dimension_mismatch.2.1 [0, 1] [0, 1] [0, 0, 0] (by decide) (by decide) (by decide),
   construct_dimension_mismatch.2.2 [0, 1] [0, 1] [0, 1] [0, 0, 0, 0, 0, 0, 0]
     (by decide) (by decide) (by decide) (by decide)⟩

/-- C7: the constructors validate X, then Y, then Z, then the dimension
check, and return the first failure: an X-axis validation error is the
constructor result whatever the later axes or the value array look like,
and a Y-axis error likewise shadows Z and dimension errors. -/
theorem construct_fail_fast_order :
    (∀ (xs d : List ℚ) (e : LutError),
      validate_axis qle xs "X" .EmptyXAxis = .error e → Lut1D.new qle xs d = .error e) ∧
    (∀ (xs ys d : List ℚ) (e : LutError),
      validate_axis qle xs "X" .EmptyXAxis = .error e → Lut2D.new qle xs ys d = .error e) ∧
    (∀ (xs ys d : List ℚ) (e : LutError),
      validate_axis qle xs "X" .EmptyXAxis = .ok () →
      validate_axis qle ys "Y" .EmptyYAxis = .error e → Lut2D.new qle xs ys d = .error e) ∧
    (∀ (xs ys zs d : List ℚ) (e : LutError),
      validate_axis qle xs "X" .EmptyXAxis = .error e → Lut3D.new qle xs ys zs d = .error e) ∧
    (∀ (xs ys zs d : List ℚ) (e : LutError),
      validate_axis qle xs "X" .EmptyXAxis = .ok () →
      validate_axis qle ys "Y" .EmptyYAxis = .error e → Lut3D.new qle xs ys zs d = .error e) ∧
    (∀ (xs ys zs d : List ℚ) (e : LutError),
      validate_axis qle xs "X" .EmptyXAxis = .ok () →
      validate_axis qle ys "Y" .EmptyYAxis = .ok () →
      validate_axis qle zs "Z" .EmptyZAxis = .error e → Lut3D.new qle xs ys zs d = .error e) := by
  refine ⟨?_, ?_, ?_, ?_, ?_, ?_⟩
  · intro xs d e hvx; unfold Lut1D.new; rw [hvx]
  · intro xs ys d e hvx; unfold Lut2D.new; rw [hvx]
  · intro xs ys d e hvx hvy; unfold Lut2D.new; rw [hvx, hvy]
  · intro xs ys zs d e hvx; unfold Lut3D.new; rw [hvx]
  · intro xs ys zs d e hvx hvy; unfold Lut3D.new; rw [hvx, hvy]
  · intro xs ys zs d e hvx hvy hvz; unfold Lut3D.new; rw [hvx, hvy, hvz]

/-- Witness: an unsorted X axis shadows an empty Y axis, an unsorted Y
shadows an empty Z, and both shadow wrong value-array lengths. -/
theorem construct_fail_fast_order_witness :
    Lut1D.new qle [(1 : ℚ), 1] [] = .error (.UnsortedAxis "X" 1) ∧
    Lut2D.new qle [(1 : ℚ), 1] [] [] = .error (.UnsortedAxis "X" 1) ∧
    Lut2D.new qle [(0 : ℚ), 1] [(4 : ℚ), 3] [] = .error (.UnsortedAxis "Y" 1) ∧
    Lut3D.new qle [(1 : ℚ), 1] [] [] [] = .error (.UnsortedAxis "X" 1) ∧
    Lut3D.new qle [(0 : ℚ), 1] [(4 : ℚ), 3] [] [] = .error (.UnsortedAxis "Y" 1) ∧
    Lut3D.new qle [(0 : ℚ), 1] [(0 : ℚ), 1] [(7 : ℚ), 7] [] = .error (.UnsortedAxis "Z" 1) :=
  ⟨construct_fail_fast_order.1 [1, 1] [] (.UnsortedAxis "X" 1) (by decide),
   construct_fail_fast_order.2.1 [1, 1] [] [] (.UnsortedAxis "X" 1) (by decide),
   construct_fail_fast_order.2.2.1 [0, 1] [4, 3] [] (.UnsortedAxis "Y" 1) (by decide) (by decide),
   construct_fail_fast_order.2.2.2.1 [1, 1] [] [] [] (.UnsortedAxis "X" 1) (by decide),
   construct_fail_fast_order.2.2.2.2.1 [0, 1] [4, 3] [] [] (.UnsortedAxis "Y" 1) (by decide) (by decide),
   construct_fail_fast_order.2.2.2.2.2 [0, 1] [0, 1] [7, 7] [] (.UnsortedAxis "Z" 1)
     (by decide) (by decide) (by decide)⟩

/-! ### Claims about concrete behaviour and the NaN gap -/

/-- C8: the torque-curve scenario.  The table over X axis
[0, 1000, 2000, 3000, 4000] with values [0, 100, 200, 180, 150] is
accepted by the constructor, and lookup returns exactly 150 at 1500,
exactly 0 at -50 (clamped low), and exactly 150 at 4500 (clamped high). -/
theorem lut1d_concrete_scenario :
    Lut1D.new qle [(0 : ℚ), 1000, 2000, 3000, 4000] [0, 100, 200, 180, 150]
      = .ok (Lut1D.mk [0, 1000, 2000, 3000, 4000] [0, 100, 200, 180, 150]) ∧
    (Lut1D.mk [(0 : ℚ), 1000, 2000, 3000, 4000] [0, 100, 200, 180, 150]).lookup 1500
      = some 150 ∧
    (Lut1D.mk [(0 : ℚ), 1000, 2000, 3000, 4000] [0, 100, 200, 180, 150]).lookup (-50)
      = some 0 ∧
    (Lut1D.mk [(0 : ℚ), 1000, 2000, 3000, 4000] [0, 100, 200, 180, 150]).lookup 4500
      = some 150 := by
  refine ⟨by decide, ?_, ?_, ?_⟩ <;>
    norm_num [Lut1D.lookup, find_interval, searchLoop, lerp]

/-- C10: axis validation does not reject NaN.  The axis [0, NaN, 1]
passes validate_axis, because the IEEE comparison returns false when
either operand is NaN, and each of the three constructors accepts a table
built over that axis. -/
theorem validate_accepts_nan_axis :
    validate_axis f64le [some 0, none, some 1] "X" .EmptyXAxis = .ok () ∧
    Lut1D.new f64le [some 0, none, some 1] [some 0, some 0, some 0]
      = .ok (Lut1D.mk [some 0, none, some 1] [some 0, some 0, some 0]) ∧
    Lut2D.new f64le [some 0, none, some 1] [some 0, some 1]
        [some 0, some 0, some 0, some 0, some 0, some 0]
      = .ok (Lut2D.mk [some 0, none, some 1] [some 0, some 1]
          [some 0, some 0, some 0, some 0, some 0, some 0]) ∧
    Lut3D.new f64le [some 0, some 1] [some 0, none, some 1] [some 0, some 1]
        [some 0, some 0, some 0, some 0, some 0, some 0,
         some 0, some 0, some 0, some 0, some 0, some 0]
      = .ok (Lut3D.mk [some 0, some 1] [some 0, none, some 1] [some 0, some 1]
          [some 0, some 0, some 0, some 0, some 0, some 0,
           some 0, some 0, some 0, some 0, some 0, some 0]) := by
  refine ⟨by decide, by decide, by decide, by decide⟩

/-- C1 counterexample: the constructors accept any non-empty strictly
ascending axis, including a single-breakpoint one, but on such a table
the lookup reads the value array at index 1, which is out of bounds, so
the lookup does not return a value (the Rust code panics there).  This
refutes the claim that lookup completes for every accepted table. -/
theorem single_breakpoint_lookup_counterexample :
    Lut1D.new qle [(0 : ℚ)] [5] = .ok (Lut1D.mk [0] [5]) ∧
    (Lut1D.mk [(0 : ℚ)] [5]).lookup 0 = none := by
  refine ⟨by decide, ?_⟩
  norm_num [Lut1D.lookup, find_interval, searchLoop]

/-- C1 amended: for every table accepted by a constructor all of whose
axes have at least two breakpoints, lookup at any query tuple completes
and returns a value. -/
theorem lookup_total_of_axes_ge_two :
    (∀ (xs d : List ℚ) (lut : Lut1D ℚ) (x : ℚ),
      Lut1D.new qle xs d = .ok lut → 2 ≤ xs.length →
      (lut.lookup x).isSome = true) ∧
    (∀ (xs ys d : List ℚ) (lut : Lut2D ℚ) (x y : ℚ),
      Lut2D.new qle xs ys d = .ok lut → 2 ≤ xs.length → 2 ≤ ys.length →
      (lut.lookup x y).isSome = true) ∧
    (∀ (xs ys zs d : List ℚ) (lut : Lut3D ℚ) (x y z : ℚ),
      Lut3D.new qle xs ys zs d = .ok lut →
      2 ≤ xs.length → 2 ≤ ys.length → 2 ≤ zs.length →
      (lut.lookup x y z).isSome = true) := by
  refine ⟨?_, ?_, ?_⟩
  · intro xs d lut x h h2
    obtain ⟨hl, _, hd⟩ := lut1d_new_ok h
    subst hl
    rw [lut1d_lookup_eq h2 hd]
    rfl
  · intro xs ys d lut x y h hx hy
    obtain ⟨hl, _, _, hd⟩ := lut2d_new_ok h
    subst hl
    rw [lut2d_lookup_eq hx hy hd]
    rfl
  · intro xs ys zs d lut x y z h hx hy hz
    obtain ⟨hl, _, _, _, hd⟩ := lut3d_new_ok h
    subst hl
    rw [lut3d_lookup_eq hx hy hz hd]
    rfl

/-- Witness: lookups on concrete two-point tables return values, also
outside the domain. -/
theorem lookup_total_of_axes_ge_two_witness :
    ((Lut1D.mk [(0 : ℚ), 1] [10, 20]).lookup 7).isSome = true ∧
    ((Lut2D.mk [(0 : ℚ), 1] [(0 : ℚ), 1] [1, 2, 3, 4]).lookup 7 (-3)).isSome = true ∧
    ((Lut3D.mk [(0 : ℚ), 1] [(0 : ℚ), 1] [(0 : ℚ), 1]
        [1, 2, 3, 4, 5, 6, 7, 8]).lookup 7 (-3) (1/2)).isSome = true :=
  ⟨lookup_total_of_axes_ge_two.1 [0, 1] [10, 20] _ 7 (by decide) (by decide),
   lookup_total_of_axes_ge_two.2.1 [0, 1] [0, 1] [1, 2, 3, 4] _ 7 (-3)
     (by decide) (by decide) (by decide),
   lookup_total_of_axes_ge_two.2.2 [0, 1] [0, 1] [0, 1] [1, 2, 3, 4, 5, 6, 7, 8] _ 7 (-3) (1/2)
     (by decide) (by decide) (by decide) (by decide)⟩

/-! ### Claims about interval location and index safety -/

/-- C3: on a strictly ascending axis of length at least two, an interior
query returns an index whose breakpoint pair brackets the query, together
with the normalized fraction of the query inside that pair, lying in
[0, 1]; queries at or below the first breakpoint return (0, 0) and queries
at or above the last breakpoint return (len - 2, 1). -/
theorem find_interval_spec :
    ∀ (axis : List ℚ) (x : ℚ), StrictAscQ axis → 2 ≤ axis.length →
      ((axis.getD 0 0 < x → x < axis.getD (axis.length - 1) 0 →
        (find_interval axis x).1 ≤ axis.length - 2 ∧
        axis.getD (find_interval axis x).1 0 ≤ x ∧
        x < axis.getD ((find_interval axis x).1 + 1) 0 ∧
        (find_interval axis x).2 =
          (x - axis.getD (find_interval axis x).1 0) /
            (axis.getD ((find_interval axis x).1 + 1) 0 -
              axis.getD (find_interval axis x).1 0) ∧
        0 ≤ (find_interval axis x).2 ∧ (find_interval axis x).2 ≤ 1) ∧
      (x ≤ axis.getD 0 0 → find_interval axis x = (0, 0)) ∧
      (axis.getD (axis.length - 1) 0 ≤ x →
        find_interval axis x = (axis.length - 2, 1))) := by
  intro axis x hs h2
  refine ⟨?_, fun h => find_interval_low h, fun h => ?_⟩
  · intro hlo hhi
    have h0 : ¬ x ≤ axis.getD 0 0 := not_le.mpr hlo
    have h1 : ¬ axis.getD (axis.length - 1) 0 ≤ x := not_le.mpr hhi
    obtain ⟨l, heq, hle, hbr1, hbr2⟩ := find_interval_search h2 h0 h1
    have hden : 0 < axis.getD (l + 1) 0 - axis.getD l 0 := by
      have := strictAscQ_lt hs (show l < l + 1 by omega) (show l + 1 < axis.length by omega)
      linarith
    rw [heq]
    refine ⟨by omega, hbr1, hbr2, rfl, ?_, ?_⟩
    · exact div_nonneg (by linarith) (le_of_lt hden)
    · exact (div_le_one hden).mpr (by linarith)
  · have h0 : ¬ x ≤ axis.getD 0 0 := by
      have hlt : axis.getD 0 0 < axis.getD (axis.length - 1) 0 :=
        strictAscQ_lt hs (by omega) (by omega)
      exact not_le.mpr (lt_of_lt_of_le hlt h)
    exact find_interval_high h0 h

/-- Witness: the spec of find_interval evaluated on the axis [0, 10] at an
interior, a low and a high query. -/
theorem find_interval_spec_witness :
    ((find_interval [(0 : ℚ), 10] 4).1 ≤ 0 ∧
      List.getD [(0 : ℚ), 10] (find_interval [(0 : ℚ), 10] 4).1 0 ≤ 4 ∧
      (4 : ℚ) < List.getD [(0 : ℚ), 10] ((find_interval [(0 : ℚ), 10] 4).1 + 1) 0 ∧
      (find_interval [(0 : ℚ), 10] 4).2 =
        (4 - List.getD [(0 : ℚ), 10] (find_interval [(0 : ℚ), 10] 4).1 0) /
          (List.getD [(0 : ℚ), 10] ((find_interval [(0 : ℚ), 10] 4).1 + 1) 0 -
            List.getD [(0 : ℚ), 10] (find_interval [(0 : ℚ), 10] 4).1 0) ∧
      (0 : ℚ) ≤ (find_interval [(0 : ℚ), 10] 4).2 ∧
      (find_interval [(0 : ℚ), 10] 4).2 ≤ 1) ∧
    find_interval [(0 : ℚ), 10] (-5) = (0, 0) ∧
    find_interval [(0 : ℚ), 10] 12 = (0, 1) :=
  ⟨(find_interval_spec [0, 10] 4 (by decide) (by decide)).1 (by decide) (by decide),
   (find_interval_spec [0, 10] (-5) (by decide) (by decide)).2.1 (by decide),
   (find_interval_spec [0, 10] 12 (by decide) (by decide)).2.2 (by decide)⟩

/-- C9: on tables whose axes all have at least two breakpoints (validated
and dimension-checked by the constructor), find_interval leaves room for
the upper neighbour, and even the largest corner index formed from the
located intervals is strictly below the value-array length, so every
lookup returns a value. -/
theorem lookup_indices_in_bounds :
    (∀ (axis : List ℚ) (x : ℚ), StrictAscQ axis → 2 ≤ axis.length →
      (find_interval axis x).1 ≤ axis.length - 2) ∧
    (∀ (xs d : List ℚ) (lut : Lut1D ℚ) (x : ℚ),
      Lut1D.new qle xs d = .ok lut → 2 ≤ xs.length →
      (find_interval xs x).1 + 1 < d.length ∧ (lut.lookup x).isSome = true) ∧
    (∀ (xs ys d : List ℚ) (lut : Lut2D ℚ) (x y : ℚ),
      Lut2D.new qle xs ys d = .ok lut → 2 ≤ xs.length → 2 ≤ ys.length →
      ((find_interval ys y).1 + 1) * xs.length + ((find_interval xs x).1 + 1) < d.length ∧
      (lut.lookup x y).isSome = true) ∧
    (∀ (xs ys zs d : List ℚ) (lut : Lut3D ℚ) (x y z : ℚ),
      Lut3D.new qle xs ys zs d = .ok lut → 2 ≤ xs.length → 2 ≤ ys.length → 2 ≤ zs.length →
      ((find_interval zs z).1 + 1) * (xs.length * ys.length) +
        ((find_interval ys y).1 + 1) * xs.length + ((find_interval xs x).1 + 1) < d.length ∧
      (lut.lookup x y z).isSome = true) := by
  refine ⟨?_, ?_, ?_, ?_⟩
  · intro axis x _ h2
    have := find_interval_fst_bound x h2
    omega
  · intro xs d lut x h h2
    obtain ⟨hl, _, hd⟩ := lut1d_new_ok h
    subst hl
    have hb := find_interval_fst_bound x h2
    refine ⟨by omega, ?_⟩
    rw [lut1d_lookup_eq h2 hd]
    rfl
  · intro xs ys d lut x y h hx hy
    obtain ⟨hl, _, _, hd⟩ := lut2d_new_ok h
    subst hl
    have hbx := find_interval_fst_bound x hx
    have hby := find_interval_fst_bound y hy
    refine ⟨?_, ?_⟩
    · rw [hd]
      exact idx2_lt (by omega) (by omega)
    · rw [lut2d_lookup_eq hx hy hd]
      rfl
  · intro xs ys zs d lut x y z h hx hy hz
    obtain ⟨hl, _, _, _, hd⟩ := lut3d_new_ok h
    subst hl
    have hbx := find_interval_fst_bound x hx
    have hby := find_interval_fst_bound y hy
    have hbz := find_interval_fst_bound z hz
    refine ⟨?_, ?_⟩
    · rw [hd]
      exact idx3_lt (by omega) (by omega) (by omega)
    · rw [lut3d_lookup_eq hx hy hz hd]
      rfl

/-- Witness: the corner-index bound and lookup success on concrete
two-by-two tables, queried outside the domain on purpose. -/
theorem lookup_indices_in_bounds_witness :
    (find_interval [(0 : ℚ), 1, 2] 99).1 ≤ 1 ∧
    ((find_interval [(0 : ℚ), 1] 99).1 + 1 < 2 ∧
      ((Lut1D.mk [(0 : ℚ), 1] [3, 4]).lookup 99).isSome = true) ∧
    (((find_interval [(0 : ℚ), 1] (-7)).1 + 1) * 2 + ((find_interval [(0 : ℚ), 1] 99).1 + 1) < 4 ∧
      ((Lut2D.mk [(0 : ℚ), 1] [(0 : ℚ), 1] [3, 4, 5, 6]).lookup 99 (-7)).isSome = true) ∧
    (((find_interval [(0 : ℚ), 1] 8).1 + 1) * (2 * 2) +
        ((find_interval [(0 : ℚ), 1] (-7)).1 + 1) * 2 + ((find_interval [(0 : ℚ), 1] 99).1 + 1) < 8 ∧
      ((Lut3D.mk [(0 : ℚ), 1] [(0 : ℚ), 1] [(0 : ℚ), 1]
          [3, 4, 5, 6, 7, 8, 9, 10]).lookup 99 (-7) 8).isSome = true) :=
  ⟨lookup_indices_in_bounds.1 [0, 1, 2] 99 (by decide) (by decide),
   lookup_indices_in_bounds.2.1 [0, 1] [3, 4] _ 99 (by decide) (by decide),
   lookup_indices_in_bounds.2.2.1 [0, 1] [0, 1] [3, 4, 5, 6] _ 99 (-7)
     (by decide) (by decide) (by decide),
   lookup_indices_in_bounds.2.2.2 [0, 1] [0, 1] [0, 1] [3, 4, 5, 6, 7, 8, 9, 10] _ 99 (-7) 8
     (by decide) (by decide) (by decide) (by decide)⟩

/-! ### Claim about boundary clamping -/

/-- C4: on every validly constructed table whose axes have at least two
breakpoints, a query below the first breakpoint of any dimension gives
the same result as querying exactly at that first breakpoint, holding the
other coordinates fixed, and symmetrically a query above the last
breakpoint matches the query at the last breakpoint. -/
theorem lookup_boundary_clamping :
    (∀ (xs d : List ℚ) (lut : Lut1D ℚ) (x : ℚ),
      Lut1D.new qle xs d = .ok lut → 2 ≤ xs.length → x < xs.getD 0 0 →
      lut.lookup x = lut.lookup (xs.getD 0 0)) ∧
    (∀ (xs d : List ℚ) (lut : Lut1D ℚ) (x : ℚ),
      Lut1D.new qle xs d = .ok lut → 2 ≤ xs.length → xs.getD (xs.length - 1) 0 < x →
      lut.lookup x = lut.lookup (xs.getD (xs.length - 1) 0)) ∧
    (∀ (xs ys d : List ℚ) (lut : Lut2D ℚ) (x y : ℚ),
      Lut2D.new qle xs ys d = .ok lut → 2 ≤ xs.length → 2 ≤ ys.length →
      x < xs.getD 0 0 → lut.lookup x y = lut.lookup (xs.getD 0 0) y) ∧
    (∀ (xs ys d : List ℚ) (lut : Lut2D ℚ) (x y : ℚ),
      Lut2D.new qle xs ys d = .ok lut → 2 ≤ xs.length → 2 ≤ ys.length →
      xs.getD (xs.length - 1) 0 < x →
      lut.lookup x y = lut.lookup (xs.getD (xs.length - 1) 0) y) ∧
    (∀ (xs ys d : List ℚ) (lut : Lut2D ℚ) (x y : ℚ),
      Lut2D.new qle xs ys d = .ok lut → 2 ≤ xs.length → 2 ≤ ys.length →
      y < ys.getD 0 0 → lut.lookup x y = lut.lookup x (ys.getD 0 0)) ∧
    (∀ (xs ys d : List ℚ) (lut : Lut2D ℚ) (x y : ℚ),
      Lut2D.new qle xs ys d = .ok lut → 2 ≤ xs.length → 2 ≤ ys.length →
      ys.getD (ys.length - 1) 0 < y →
      lut.lookup x y = lut.lookup x (ys.getD (ys.length - 1) 0)) ∧
    (∀ (xs ys zs d : List ℚ) (lut : Lut3D ℚ) (x y z : ℚ),
      Lut3D.new qle xs ys zs d = .ok lut → 2 ≤ xs.length → 2 ≤ ys.length → 2 ≤ zs.length →
      x < xs.getD 0 0 → lut.lookup x y z = lut.lookup (xs.getD 0 0) y z) ∧
    (∀ (xs ys zs d : List ℚ) (lut : Lut3D ℚ) (x y z : ℚ),
      Lut3D.new qle xs ys zs d = .ok lut → 2 ≤ xs.length → 2 ≤ ys.length → 2 ≤ zs.length →
      xs.getD (xs.length - 1) 0 < x →
      lut.lookup x y z = lut.lookup (xs.getD (xs.length - 1) 0) y z) ∧
    (∀ (xs ys zs d : List ℚ) (lut : Lut3D ℚ) (x y z : ℚ),
      Lut3D.new qle xs ys zs d = .ok lut → 2 ≤ xs.length → 2 ≤ ys.length → 2 ≤ zs.length →
      y < ys.getD 0 0 → lut.lookup x y z = lut.lookup x (ys.getD 0 0) z) ∧
    (∀ (xs ys zs d : List ℚ) (lut : Lut3D ℚ) (x y z : ℚ),
      Lut3D.new qle xs ys zs d = .ok lut → 2 ≤ xs.length → 2 ≤ ys.length → 2 ≤ zs.length →
      ys.getD (ys.length - 1) 0 < y →
      lut.lookup x y z = lut.lookup x (ys.getD (ys.length - 1) 0) z) ∧
    (∀ (xs ys zs d : List ℚ) (lut : Lut3D ℚ) (x y z : ℚ),
      Lut3D.new qle xs ys zs d = .ok lut → 2 ≤ xs.length → 2 ≤ ys.length → 2 ≤ zs.length →
      z < zs.getD 0 0 → lut.lookup x y z = lut.lookup x y (zs.getD 0 0)) ∧
    (∀ (xs ys zs d : List ℚ) (lut : Lut3D ℚ) (x y z : ℚ),
      Lut3D.new qle xs ys zs d = .ok lut → 2 ≤ xs.length → 2 ≤ ys.length → 2 ≤ zs.length →
      zs.getD (zs.length - 1) 0 < z →
      lut.lookup x y z = lut.lookup x y (zs.getD (zs.length - 1) 0)) := by
  have low : ∀ (axis : List ℚ) (x : ℚ), x < axis.getD 0 0 →
      find_interval axis x = find_interval axis (axis.getD 0 0) := by
    intro axis x hq
    rw [find_interval_low (le_of_lt hq), find_interval_low (le_refl _)]
  have high : ∀ (axis : List ℚ) (x : ℚ), StrictAscQ axis → 2 ≤ axis.length →
      axis.getD (axis.length - 1) 0 < x →
      find_interval axis x = find_interval axis (axis.getD (axis.length - 1) 0) := by
    intro axis x hs h2 hq
    have hfirst : axis.getD 0 0 < axis.getD (axis.length - 1) 0 :=
      strictAscQ_lt hs (by omega) (by omega)
    rw [find_interval_high (not_le.mpr (lt_trans hfirst hq)) (le_of_lt hq),
      find_interval_high (not_le.mpr hfirst) (le_refl _)]
  refine ⟨?_, ?_, ?_, ?_, ?_, ?_, ?_, ?_, ?_, ?_, ?_, ?_⟩
  · intro xs d lut x h h2 hq
    obtain ⟨hl, hs, hd⟩ := lut1d_new_ok h
    subst hl
    rw [lut1d_lookup_eq h2 hd x, lut1d_lookup_eq h2 hd (xs.getD 0 0), low xs x hq]
  · intro xs d lut x h h2 hq
    obtain ⟨hl, hs, hd⟩ := lut1d_new_ok h
    subst hl
    rw [lut1d_lookup_eq h2 hd x, lut1d_lookup_eq h2 hd (xs.getD (xs.length - 1) 0),
      high xs x hs h2 hq]
  · intro xs ys d lut x y h hx hy hq
    obtain ⟨hl, hsx, hsy, hd⟩ := lut2d_new_ok h
    subst hl
    rw [lut2d_lookup_eq hx hy hd x y, lut2d_lookup_eq hx hy hd (xs.getD 0 0) y, low xs x hq]
  · intro xs ys d lut x y h hx hy hq
    obtain ⟨hl, hsx, hsy, hd⟩ := lut2d_new_ok h
    subst hl
    rw [lut2d_lookup_eq hx hy hd x y,
      lut2d_lookup_eq hx hy hd (xs.getD (xs.length - 1) 0) y, high xs x hsx hx hq]
  · intro xs ys d lut x y h hx hy hq
    obtain ⟨hl, hsx, hsy, hd⟩ := lut2d_new_ok h
    subst hl
    rw [lut2d_lookup_eq hx hy hd x y, lut2d_lookup_eq hx hy hd x (ys.getD 0 0), low ys y hq]
  · intro xs ys d lut x y h hx hy hq
    obtain ⟨hl, hsx, hsy, hd⟩ := lut2d_new_ok h
    subst hl
    rw [lut2d_lookup_eq hx hy hd x y,
      lut2d_lookup_eq hx hy hd x (ys.getD (ys.length - 1) 0), high ys y hsy hy hq]
  · intro xs ys zs d lut x y z h hx hy hz hq
    obtain ⟨hl, hsx, hsy, hsz, hd⟩ := lut3d_new_ok h
    subst hl
    rw [lut3d_lookup_eq hx hy hz hd x y z,
      lut3d_lookup_eq hx hy hz hd (xs.getD 0 0) y z, low xs x hq]
  · intro xs ys zs d lut x y z h hx hy hz hq
    obtain ⟨hl, hsx, hsy, hsz, hd⟩ := lut3d_new_ok h
    subst hl
    rw [lut3d_lookup_eq hx hy hz hd x y z,
      lut3d_lookup_eq hx hy hz hd (xs.getD (xs.length - 1) 0) y z, high xs x hsx hx hq]
  · intro xs ys zs d lut x y z h hx hy hz hq
    obtain ⟨hl, hsx, hsy, hsz, hd⟩ := lut3d_new_ok h
    subst hl
    rw [lut3d_lookup_eq hx hy hz hd x y z,
      lut3d_lookup_eq hx hy hz hd x (ys.getD 0 0) z, low ys y hq]
  · intro xs ys zs d lut x y z h hx hy hz hq
    obtain ⟨hl, hsx, hsy, hsz, hd⟩ := lut3d_new_ok h
    subst hl
    rw [lut3d_lookup_eq hx hy hz hd x y z,
      lut3d_lookup_eq hx hy hz hd x (ys.getD (ys.length - 1) 0) z, high ys y hsy hy hq]
  · intro xs ys zs d lut x y z h hx hy hz hq
    obtain ⟨hl, hsx, hsy, hsz, hd⟩ := lut3d_new_ok h
    subst hl
    rw [lut3d_lookup_eq hx hy hz hd x y z,
      lut3d_lookup_eq hx hy hz hd x y (zs.getD 0 0), low zs z hq]
  · intro xs ys zs d lut x y z h hx hy hz hq
    obtain ⟨hl, hsx, hsy, hsz, hd⟩ := lut3d_new_ok h
    subst hl
    rw [lut3d_lookup_eq hx hy hz hd x y z,
      lut3d_lookup_eq hx hy hz hd x y (zs.getD (zs.length - 1) 0), high zs z hsz hz hq]

/-- Witness: clamping equalities on concrete two-point tables for every
dimension and both sides. -/
theorem lookup_boundary_clamping_witness :
    (Lut1D.mk [(0 : ℚ), 1] [10, 20]).lookup (-1)
      = (Lut1D.mk [(0 : ℚ), 1] [10, 20]).lookup (List.getD [(0 : ℚ), 1] 0 0) ∧
    (Lut1D.mk [(0 : ℚ), 1] [10, 20]).lookup 9
      = (Lut1D.mk [(0 : ℚ), 1] [10, 20]).lookup (List.getD [(0 : ℚ), 1] 1 0) ∧
    (Lut2D.mk [(0 : ℚ), 1] [(0 : ℚ), 1] [1, 2, 3, 4]).lookup (-1) (1/2)
      = (Lut2D.mk [(0 : ℚ), 1] [(0 : ℚ), 1] [1, 2, 3, 4]).lookup (List.getD [(0 : ℚ), 1] 0 0) (1/2) ∧
    (Lut2D.mk [(0 : ℚ), 1] [(0 : ℚ), 1] [1, 2, 3, 4]).lookup 9 (1/2)
      = (Lut2D.mk [(0 : ℚ), 1] [(0 : ℚ), 1] [1, 2, 3, 4]).lookup (List.getD [(0 : ℚ), 1] 1 0) (1/2) ∧
    (Lut2D.mk [(0 : ℚ), 1] [(0 : ℚ), 1] [1, 2, 3, 4]).lookup (1/2) (-1)
      = (Lut2D.mk [(0 : ℚ), 1] [(0 : ℚ), 1] [1, 2, 3, 4]).lookup (1/2) (List.getD [(0 : ℚ), 1] 0 0) ∧
    (Lut2D.mk [(0 : ℚ), 1] [(0 : ℚ), 1] [1, 2, 3, 4]).lookup (1/2) 9
      = (Lut2D.mk [(0 : ℚ), 1] [(0 : ℚ), 1] [1, 2, 3, 4]).lookup (1/2) (List.getD [(0 : ℚ), 1] 1 0) ∧
    (Lut3D.mk [(0 : ℚ), 1] [(0 : ℚ), 1] [(0 : ℚ), 1] [1, 2, 3, 4, 5, 6, 7, 8]).lookup (-1) (1/2) (1/2)
      = (Lut3D.mk [(0 : ℚ), 1] [(0 : ℚ), 1] [(0 : ℚ), 1] [1, 2, 3, 4, 5, 6, 7, 8]).lookup
          (List.getD [(0 : ℚ), 1] 0 0) (1/2) (1/2) ∧
    (Lut3D.mk [(0 : ℚ), 1] [(0 : ℚ), 1] [(0 : ℚ), 1] [1, 2, 3, 4, 5, 6, 7, 8]).lookup 9 (1/2) (1/2)
      = (Lut3D.mk [(0 : ℚ), 1] [(0 : ℚ), 1] [(0 : ℚ), 1] [1, 2, 3, 4, 5, 6, 7, 8]).lookup
          (List.getD [(0 : ℚ), 1] 1 0) (1/2) (1/2) ∧
    (Lut3D.mk [(0 : ℚ), 1] [(0 : ℚ), 1] [(0 : ℚ), 1] [1, 2, 3, 4, 5, 6, 7, 8]).lookup (1/2) (-1) (1/2)
      = (Lut3D.mk [(0 : ℚ), 1] [(0 : ℚ), 1] [(0 : ℚ), 1] [1, 2, 3, 4, 5, 6, 7, 8]).lookup
          (1/2) (List.getD [(0 : ℚ), 1] 0 0) (1/2) ∧
    (Lut3D.mk [(0 : ℚ), 1] [(0 : ℚ), 1] [(0 : ℚ), 1] [1, 2, 3, 4, 5, 6, 7, 8]).lookup (1/2) 9 (1/2)
      = (Lut3D.mk [(0 : ℚ), 1] [(0 : ℚ), 1] [(0 : ℚ), 1] [1, 2, 3, 4, 5, 6, 7, 8]).lookup
          (1/2) (List.getD [(0 : ℚ), 1] 1 0) (1/2) ∧
    (Lut3D.mk [(0 : ℚ), 1] [(0 : ℚ), 1] [(0 : ℚ), 1] [1, 2, 3, 4, 5, 6, 7, 8]).lookup (1/2) (1/2) (-1)
      = (Lut3D.mk [(0 : ℚ), 1] [(0 : ℚ), 1] [(0 : ℚ), 1] [1, 2, 3, 4, 5, 6, 7, 8]).lookup
          (1/2) (1/2) (List.getD [(0 : ℚ), 1] 0 0) ∧
    (Lut3D.mk [(0 : ℚ), 1] [(0 : ℚ), 1] [(0 : ℚ), 1] [1, 2, 3, 4, 5, 6, 7, 8]).lookup (1/2) (1/2) 9
      = (Lut3D.mk [(0 : ℚ), 1] [(0 : ℚ), 1] [(0 : ℚ), 1] [1, 2, 3, 4, 5, 6, 7, 8]).lookup
          (1/2) (1/2) (List.getD [(0 : ℚ), 1] 1 0) :=
  ⟨lookup_boundary_clamping.1 [0, 1] [10, 20] _ (-1) (by decide) (by decide) (by decide),
   lookup_boundary_clamping.2.1 [0, 1] [10, 20] _ 9 (by decide) (by decide) (by decide),
   lookup_boundary_clamping.2.2.1 [0, 1] [0, 1] [1, 2, 3, 4] _ (-1) (1/2)
     (by decide) (by decide) (by decide) (by decide),
   lookup_boundary_clamping.2.2.2.1 [0, 1] [0, 1] [1, 2, 3, 4] _ 9 (1/2)
     (by decide) (by decide) (by decide) (by decide),
   lookup_boundary_clamping.2.2.2.2.1 [0, 1] [0, 1] [1, 2, 3, 4] _ (1/2) (-1)
     (by decide) (by decide) (by decide) (by decide),
   lookup_boundary_clamping.2.2.2.2.2.1 [0, 1] [0, 1] [1, 2, 3, 4] _ (1/2) 9
     (by decide) (by decide) (by decide) (by decide),
   lookup_boundary_clamping.2.2.2.2.2.2.1 [0, 1] [0, 1] [0, 1] [1, 2, 3, 4, 5, 6, 7, 8] _
     (-1) (1/2) (1/2) (by decide) (by decide) (by decide) (by decide) (by decide),
   lookup_boundary_clamping.2.2.2.2.2.2.2.1 [0, 1] [0, 1] [0, 1] [1, 2, 3, 4, 5, 6, 7, 8] _
     9 (1/2) (1/2) (by decide) (by decide) (by decide) (by decide) (by decide),
   lookup_boundary_clamping.2.2.2.2.2.2.2.2.1 [0, 1] [0, 1] [0, 1] [1, 2, 3, 4, 5, 6, 7, 8] _
     (1/2) (-1) (1/2) (by decide) (by decide) (by decide) (by decide) (by decide),
   lookup_boundary_clamping.2.2.2.2.2.2.2.2.2.1 [0, 1] [0, 1] [0, 1] [1, 2, 3, 4, 5, 6, 7, 8] _
     (1/2) 9 (1/2) (by decide) (by decide) (by decide) (by decide) (by decide),
   lookup_boundary_clamping.2.2.2.2.2.2.2.2.2.2.1 [0, 1] [0, 1] [0, 1] [1, 2, 3, 4, 5, 6, 7, 8] _
     (1/2) (1/2) (-1) (by decide) (by decide) (by decide) (by decide) (by decide),
   lookup_boundary_clamping.2.2.2.2.2.2.2.2.2.2.2 [0, 1] [0, 1] [0, 1] [1, 2, 3, 4, 5, 6, 7, 8] _
     (1/2) (1/2) 9 (by decide) (by decide) (by decide) (by decide) (by decide)⟩

/-! ### Claim about exactness at breakpoints -/

/-- C2: on every validly constructed table whose axes have at least two
breakpoints, querying exactly at a grid point returns exactly the stored
sample at that grid point, for 1D, 2D and 3D, including the last
breakpoint of each axis where the locator yields fraction one.  All
arithmetic in the model is exact. -/
theorem lookup_exact_at_breakpoints :
    (∀ (xs d : List ℚ) (lut : Lut1D ℚ) (i : Nat),
      Lut1D.new qle xs d = .ok lut → 2 ≤ xs.length → i < xs.length →
      lut.lookup (xs.getD i 0) = some (d.getD i 0)) ∧
    (∀ (xs ys d : List ℚ) (lut : Lut2D ℚ) (i j : Nat),
      Lut2D.new qle xs ys d = .ok lut → 2 ≤ xs.length → 2 ≤ ys.length →
      i < xs.length → j < ys.length →
      lut.lookup (xs.getD i 0) (ys.getD j 0) = some (d.getD (j * xs.length + i) 0)) ∧
    (∀ (xs ys zs d : List ℚ) (lut : Lut3D ℚ) (i j k : Nat),
      Lut3D.new qle xs ys zs d = .ok lut → 2 ≤ xs.length → 2 ≤ ys.length → 2 ≤ zs.length →
      i < xs.length → j < ys.length → k < zs.length →
      lut.lookup (xs.getD i 0) (ys.getD j 0) (zs.getD k 0)
        = some (d.getD (k * (xs.length * ys.length) + j * xs.length + i) 0)) := by
  refine ⟨?_, ?_, ?_⟩
  · intro xs d lut i h h2 hi
    obtain ⟨hl, hs, hd⟩ := lut1d_new_ok h
    subst hl
    rw [lut1d_lookup_eq h2 hd]
    by_cases hxi : i + 1 < xs.length
    · rw [find_interval_breakpoint_lt hs hxi]
      simp [lerp_zero]
    · have hieq : i = xs.length - 1 := by omega
      subst hieq
      rw [find_interval_breakpoint_last hs h2]
      have hex : xs.length - 2 + 1 = xs.length - 1 := by omega
      simp [lerp_one, hex]
  · intro xs ys d lut i j h hx hy hi hj
    obtain ⟨hl, hsx, hsy, hd⟩ := lut2d_new_ok h
    subst hl
    rw [lut2d_lookup_eq hx hy hd]
    have hex : xs.length - 2 + 1 = xs.length - 1 := by omega
    have hey : ys.length - 2 + 1 = ys.length - 1 := by omega
    by_cases hxi : i + 1 < xs.length <;> by_cases hyj : j + 1 < ys.length
    · rw [find_interval_breakpoint_lt hsx hxi, find_interval_breakpoint_lt hsy hyj]
      simp [lerp_zero]
    · have hjeq : j = ys.length - 1 := by omega
      subst hjeq
      rw [find_interval_breakpoint_lt hsx hxi, find_interval_breakpoint_last hsy hy]
      simp [lerp_zero, lerp_one, hey]
    · have hieq : i = xs.length - 1 := by omega
      subst hieq
      rw [find_interval_breakpoint_last hsx hx, find_interval_breakpoint_lt hsy hyj]
      simp [lerp_zero, lerp_one, Nat.add_assoc, hex]
    · have hieq : i = xs.length - 1 := by omega
      have hjeq : j = ys.length - 1 := by omega
      subst hieq
      subst hjeq
      rw [find_interval_breakpoint_last hsx hx, find_interval_breakpoint_last hsy hy]
      simp [lerp_one, Nat.add_assoc, hex, hey]
  · intro xs ys zs d lut i j k h hx hy hz hi hj hk
    obtain ⟨hl, hsx, hsy, hsz, hd⟩ := lut3d_new_ok h
    subst hl
    rw [lut3d_lookup_eq hx hy hz hd]
    have hex : xs.length - 2 + 1 = xs.length - 1 := by omega
    have hey : ys.length - 2 + 1 = ys.length - 1 := by omega
    have hez : zs.length - 2 + 1 = zs.length - 1 := by omega
    by_cases hxi : i + 1 < xs.length <;> by_cases hyj : j + 1 < ys.length <;>
      by_cases hzk : k + 1 < zs.length
    · rw [find_interval_breakpoint_lt hsx hxi, find_interval_breakpoint_lt hsy hyj,
        find_interval_breakpoint_lt hsz hzk]
      simp [lerp_zero]
    · have hkeq : k = zs.length - 1 := by omega
      subst hkeq
      rw [find_interval_breakpoint_lt hsx hxi, find_interval_breakpoint_lt hsy hyj,
        find_interval_breakpoint_last hsz hz]
      simp [lerp_zero, lerp_one, hez]
    · have hjeq : j = ys.length - 1 := by omega
      subst hjeq
      rw [find_interval_breakpoint_lt hsx hxi, find_interval_breakpoint_last hsy hy,
        find_interval_breakpoint_lt hsz hzk]
      simp [lerp_zero, lerp_one, Nat.add_assoc, hey]
    · have hjeq : j = ys.length - 1 := by omega
      have hkeq : k = zs.length - 1 := by omega
      subst hjeq
      subst hkeq
      rw [find_interval_breakpoint_lt hsx hxi, find_interval_breakpoint_last hsy hy,
        find_interval_breakpoint_last hsz hz]
      simp [lerp_zero, lerp_one, Nat.add_assoc, hey, hez]
    · have hieq : i = xs.length - 1 := by omega
      subst hieq
      rw [find_interval_breakpoint_last hsx hx, find_interval_breakpoint_lt hsy hyj,
        find_interval_breakpoint_lt hsz hzk]
      simp [lerp_zero, lerp_one, Nat.add_assoc, hex]
    · have hieq : i = xs.length - 1 := by omega
      have hkeq : k = zs.length - 1 := by omega
      subst hieq
      subst hkeq
      rw [find_interval_breakpoint_last hsx hx, find_interval_breakpoint_lt hsy hyj,
        find_interval_breakpoint_last hsz hz]
      simp [lerp_zero, lerp_one, Nat.add_assoc, hex, hez]
    · have hieq : i = xs.length - 1 := by omega
      have hjeq : j = ys.length - 1 := by omega
      subst hieq
      subst hjeq
      rw [find_interval_breakpoint_last hsx hx, find_interval_breakpoint_last hsy hy,
        find_interval_breakpoint_lt hsz hzk]
      simp [lerp_zero, lerp_one, Nat.add_assoc, hex, hey]
    · have hieq : i = xs.length - 1 := by omega
      have hjeq : j = ys.length - 1 := by omega
      have hkeq : k = zs.length - 1 := by omega
      subst hieq
      subst hjeq
      subst hkeq
      rw [find_interval_breakpoint_last hsx hx, find_interval_breakpoint_last hsy hy,
        find_interval_breakpoint_last hsz hz]
      simp [lerp_one, Nat.add_assoc, hex, hey, hez]

/-- Witness: exactness at concrete grid points, including last
breakpoints where the locator returns fraction one. -/
theorem lookup_exact_at_breakpoints_witness :
    (Lut1D.mk [(0 : ℚ), 1] [10, 20]).lookup (List.getD [(0 : ℚ), 1] 1 0)
      = some (List.getD [(10 : ℚ), 20] 1 0) ∧
    (Lut2D.mk [(0 : ℚ), 1] [(0 : ℚ), 1] [1, 2, 3, 4]).lookup
        (List.getD [(0 : ℚ), 1] 0 0) (List.getD [(0 : ℚ), 1] 1 0)
      = some (List.getD [(1 : ℚ), 2, 3, 4] (1 * 2 + 0) 0) ∧
    (Lut3D.mk [(0 : ℚ), 1] [(0 : ℚ), 1] [(0 : ℚ), 1] [1, 2, 3, 4, 5, 6, 7, 8]).lookup
        (List.getD [(0 : ℚ), 1] 1 0) (List.getD [(0 : ℚ), 1] 0 0) (List.getD [(0 : ℚ), 1] 1 0)
      = some (List.getD [(1 : ℚ), 2, 3, 4, 5, 6, 7, 8] (1 * (2 * 2) + 0 * 2 + 1) 0) :=
  ⟨lookup_exact_at_breakpoints.1 [0, 1] [10, 20] _ 1 (by decide) (by decide) (by decide),
   lookup_exact_at_breakpoints.2.1 [0, 1] [0, 1] [1, 2, 3, 4] _ 0 1
     (by decide) (by decide) (by decide) (by decide) (by decide),
   lookup_exact_at_breakpoints.2.2 [0, 1] [0, 1] [0, 1] [1, 2, 3, 4, 5, 6, 7, 8] _ 1 0 1
     (by decide) (by decide) (by decide) (by decide) (by decide) (by decide) (by decide)⟩
